import Mathlib

/-!
Shallow embedding of the oxcc brake firmware core:
`src/dac_mcp4922.rs` (MCP4922 dual-channel 12-bit DAC driver) and
`src/brake/kia_soul_ev_niro/brake_module.rs` (brake control state machine).

Machine integers are modelled as `Nat`; the DAC values are 12-bit
(`DacOutput = Bounded<u16, 0, 4095>` in the source), ADC readings are
12-bit, `dtcs` is a `u8` bitfield in which only bits 0 and 1 are ever set,
so no wraparound can occur and plain `Nat` bitwise operations are exact.

Hardware effects (DAC writes, CAN transmissions) are modelled as an
explicit event list returned next to the updated module state; digital
pins are state fields.
-/

namespace Oxcc

/-! ## dac_mcp4922.rs -/

/-- `Channel` from `src/dac_mcp4922.rs`. -/
inductive Channel where
  | ChannelA
  | ChannelB
deriving DecidableEq, Repr

/-- `impl From<Channel> for u8` in `src/dac_mcp4922.rs`: `ChannelA -> 0b0`,
`ChannelB -> 0b1`. -/
def Channel.toByte : Channel → Nat
  | Channel.ChannelA => 0b0
  | Channel.ChannelB => 0b1

/-- The 2-byte command word built by `Mcp4922::output`
(`src/dac_mcp4922.rs`, lines 70-79): `buffer[1] = data & 0x00FF`,
`buffer[0] = ((data >> 8) & 0x000F) | (1 << 4) | (u8::from(channel) << 7)`.
Returned as `(buffer[0], buffer[1])`. -/
def mcp4922_buffer (data : Nat) (channel : Channel) : Nat × Nat :=
  let b1 := data &&& 0x00FF
  let b0 := ((data >>> 8) &&& 0x000F) ||| (1 <<< 4) ||| (channel.toByte <<< 7)
  (b0, b1)

/-- Observable outcome of one `Mcp4922::output` call (or an `output_ab`
pair): the chip-select levels driven in order (`false` = low/asserted,
`true` = high/deasserted), the 2-byte words handed to `spi.write`, and the
returned `Result`. -/
structure McpRun (ε : Type) where
  cs_levels : List Bool
  sent : List (Nat × Nat)
  result : Except ε Unit

/-- `Mcp4922::output` (`src/dac_mcp4922.rs`, lines 66-89). The underlying
SPI transfer is external; its outcome is passed in as `spiErr`
(`none` = the `spi.write` succeeded, `some e` = it failed with `e`).
Faithful to the source: select is asserted, the word is written, and on
either path select is deasserted before returning. -/
def mcp_output {ε : Type} (data : Nat) (channel : Channel) (spiErr : Option ε) :
    McpRun ε :=
  let buf := mcp4922_buffer data channel
  match spiErr with
  | some e => { cs_levels := [false, true], sent := [buf], result := Except.error e }
  | none => { cs_levels := [false, true], sent := [buf], result := Except.ok () }

/-- `Mcp4922::output_ab` (`src/dac_mcp4922.rs`, lines 60-64):
`self.output(output_a, ChannelA)?; self.output(output_b, ChannelB)`.
The `?` short-circuits: if the channel-A transfer fails, channel B is
never attempted; if A succeeds and B fails, A is updated and B stale. -/
def mcp_output_ab {ε : Type} (output_a output_b : Nat) (errA errB : Option ε) :
    McpRun ε :=
  let ra := mcp_output output_a Channel.ChannelA errA
  match ra.result with
  | Except.error e => { cs_levels := ra.cs_levels, sent := ra.sent, result := Except.error e }
  | Except.ok () =>
    let rb := mcp_output output_b Channel.ChannelB errB
    { cs_levels := ra.cs_levels ++ rb.cs_levels,
      sent := ra.sent ++ rb.sent,
      result := rb.result }

/-! ## brake_module.rs: data model -/

/-- One cycle's pair of raw ADC readings of the brake pedal position
(high and low redundant channels), as sampled by the board. The board
itself is an external collaborator; these are the values its ADC returns
during the call being modelled. -/
structure AdcInput where
  high : Nat
  low : Nat
deriving DecidableEq, Repr

/-- Input to one `check_for_faults` cycle: the ADC readings the board
would return and the current monotonic time (for the hysteresis latches). -/
structure CycleInput where
  adc : AdcInput
  now : Nat
deriving DecidableEq, Repr

/-- Modelled from the spec: `DualSignal` (the redundant sensor channel,
`dual_signal.rs` is not under `src/`). Holds the two most-recent raw
samples; `average` is the arithmetic mean computed fresh on demand. -/
structure DualSignal where
  high : Nat
  low : Nat
deriving DecidableEq, Repr

/-- Modelled from the spec: `DualSignal::update` refreshes both readings
from the external ADC sampling collaborator. -/
def DualSignal.update (_s : DualSignal) (adc : AdcInput) : DualSignal :=
  { high := adc.high, low := adc.low }

/-- Modelled from the spec: `average = (high + low) / 2`. -/
def DualSignal.average (s : DualSignal) : Nat :=
  (s.high + s.low) / 2

/-- Modelled from the spec: `prevent_signal_discontinuity` reads the
current raw values (refreshing from the ADC) and recomputes the
output-priming pair. -/
def DualSignal.prevent_signal_discontinuity (s : DualSignal) (adc : AdcInput) : DualSignal :=
  s.update adc

/-- Modelled from the spec: the output-priming value for DAC channel A is
the sensor average at the transition. -/
def DualSignal.dac_output_a (s : DualSignal) : Nat :=
  s.average

/-- Modelled from the spec: the output-priming value for DAC channel B is
the sensor average at the transition. -/
def DualSignal.dac_output_b (s : DualSignal) : Nat :=
  s.average

/-- Modelled from the spec: `FaultCondition` (the hysteresis fault latch,
`fault_condition.rs` is not under `src/`). State is the timestamp at
which the raw condition was first observed continuously true, if any. -/
structure FaultCondition where
  condition_start_time : Option Nat
deriving DecidableEq, Repr

/-- Modelled from the spec: `FaultCondition::condition_exceeded_duration`.
Given the current cycle's raw boolean condition, the hysteresis duration
and the current time, returns the updated latch and whether the condition
is confirmed: confirmed requires the raw condition to have been true on
every cycle since it first became true, for at least the configured
duration (a condition true for exactly the duration confirms at the
boundary cycle); any false observation resets the timer. -/
def FaultCondition.condition_exceeded_duration (fc : FaultCondition) (active : Bool)
    (maxDuration now : Nat) : FaultCondition × Bool :=
  if active then
    let start := fc.condition_start_time.getD now
    ({ condition_start_time := some start }, decide (maxDuration ≤ now - start))
  else
    ({ condition_start_time := none }, false)

/-- Modelled from the spec: `FaultCondition::check_voltage_grounded` feeds
"both raw sensor values simultaneously at zero" (sensor pins tied to
ground — a value of zero indicates disconnection) into the latch. -/
def FaultCondition.check_voltage_grounded (fc : FaultCondition) (signal : DualSignal)
    (maxDuration now : Nat) : FaultCondition × Bool :=
  fc.condition_exceeded_duration (signal.high == 0 && signal.low == 0) maxDuration now

/-- Modelled from the spec: the brake module's DTC bit positions from the
OSCC brake CAN protocol (not under `src/`): distinct small bit indices. -/
def OSCC_BRAKE_DTC_INVALID_SENSOR_VAL : Nat := 0

/-- Modelled from the spec: operator-override DTC bit position. -/
def OSCC_BRAKE_DTC_OPERATOR_OVERRIDE : Nat := 1

/-- `DtcBitfield::set` on the `u8` `dtcs` field: `dtcs |= 1 << dtc`.
Only bits 0 and 1 are ever set, so no `u8` overflow can occur and plain
`Nat` bitwise-or is exact. -/
def dtc_set (dtcs bit : Nat) : Nat :=
  dtcs ||| (1 <<< bit)

/-- `BrakeControlState` (`brake_module.rs`, lines 20-24). -/
structure BrakeControlState where
  enabled : Bool
  operator_override : Bool
  dtcs : Nat
deriving DecidableEq, Repr

/-- `BrakeControlState::new` (`brake_module.rs`, lines 27-33). -/
def BrakeControlState.new : BrakeControlState :=
  { enabled := false, operator_override := false, dtcs := 0 }

/-- `OsccBrakeReport` payload fields published by `publish_brake_report`. -/
structure OsccBrakeReport where
  enabled : Bool
  operator_override : Bool
  dtcs : Nat
deriving DecidableEq, Repr

/-- `OsccFaultReport` payload fields published by `publish_fault_report`. -/
structure OsccFaultReport where
  fault_origin_id : Nat
  dtcs : Nat
deriving DecidableEq, Repr

/-- Externally observable hardware/bus effects of a brake-module
operation, in order: a DAC pair-write via `output_ab`, a brake status
report CAN transmission, or a fault report CAN transmission. -/
inductive Event where
  | dacWrite (a b : Nat)
  | canBrakeReport (enabled operator_override : Bool) (dtcs : Nat)
  | canFaultReport (fault_origin_id dtcs : Nat)
deriving DecidableEq, Repr

/-- `BrakeModule` (`brake_module.rs`, lines 36-45). The two digital
output pins (`spoof_enable`, `brake_light_enable`) are modelled as state
fields (`true` = high). -/
structure BrakeModule where
  brake_pedal_position : DualSignal
  control_state : BrakeControlState
  grounded_fault_state : FaultCondition
  operator_override_state : FaultCondition
  brake_report : OsccBrakeReport
  fault_report_frame : OsccFaultReport
  spoof_enable_pin : Bool
  brake_light_pin : Bool
deriving DecidableEq, Repr

/-- `BrakeModule::new` (`brake_module.rs`, lines 48-64) followed by
`init_devices` (lines 66-69), which drives both pins low. -/
def BrakeModule.new : BrakeModule :=
  { brake_pedal_position := { high := 0, low := 0 },
    control_state := BrakeControlState.new,
    grounded_fault_state := { condition_start_time := none },
    operator_override_state := { condition_start_time := none },
    brake_report := { enabled := false, operator_override := false, dtcs := 0 },
    fault_report_frame := { fault_origin_id := 0, dtcs := 0 },
    spoof_enable_pin := false,
    brake_light_pin := false }

/-- Configuration constants consumed by the brake module. Modelled from
the spec: the vehicle-specific constants (`vehicle.rs`), the OSCC magic
bytes and CAN ids, and the position-to-voltage-to-code translation
(`brake_position_to_volts_high/low`, `STEPS_PER_VOLT`: floating-point
curve fits not under `src/`, abstracted as `spoof_translate`), plus the
payload parsers of `OsccBrakeCommand::from` / `OsccFaultReport::from`. -/
structure Config where
  BRAKE_SPOOF_HIGH_SIGNAL_RANGE_MIN : Nat
  BRAKE_SPOOF_HIGH_SIGNAL_RANGE_MAX : Nat
  BRAKE_SPOOF_LOW_SIGNAL_RANGE_MIN : Nat
  BRAKE_SPOOF_LOW_SIGNAL_RANGE_MAX : Nat
  BRAKE_LIGHT_SPOOF_HIGH_THRESHOLD : Nat
  BRAKE_LIGHT_SPOOF_LOW_THRESHOLD : Nat
  BRAKE_PEDAL_OVERRIDE_THRESHOLD : Nat
  FAULT_HYSTERESIS : Nat
  OSCC_MAGIC_BYTE_0 : Nat
  OSCC_MAGIC_BYTE_1 : Nat
  OSCC_BRAKE_ENABLE_CAN_ID : Nat
  OSCC_BRAKE_DISABLE_CAN_ID : Nat
  OSCC_BRAKE_COMMAND_CAN_ID : Nat
  OSCC_FAULT_REPORT_CAN_ID : Nat
  FAULT_ORIGIN_BRAKE : Nat
  spoof_translate : Nat → Nat × Nat
  parse_pedal_command : List Nat → Nat
  parse_fault_report : List Nat → Nat × Nat

/-- `num::clamp` as used by the firmware:
`if input < min { min } else if input > max { max } else { input }`. -/
def clamp (input min max : Nat) : Nat :=
  if input < min then min else if input > max then max else input

/-! ## brake_module.rs: operations -/

/-- `BrakeModule::disable_control` (`brake_module.rs`, lines 83-97):
no-op unless enabled; otherwise primes the output for continuity
(refreshing the dual signal from the ADC), pair-writes the DAC,
drives spoof-enable and brake-light low and clears `enabled`. -/
def BrakeModule.disable_control (m : BrakeModule) (adc : AdcInput) :
    BrakeModule × List Event :=
  if m.control_state.enabled then
    let sig := m.brake_pedal_position.prevent_signal_discontinuity adc
    let a := sig.dac_output_a
    let b := sig.dac_output_b
    ({ m with
        brake_pedal_position := sig,
        spoof_enable_pin := false,
        brake_light_pin := false,
        control_state := { m.control_state with enabled := false } },
      [Event.dacWrite a b])
  else
    (m, [])

/-- `BrakeModule::enable_control` (`brake_module.rs`, lines 99-112):
no-op unless disabled and not operator-overridden; otherwise primes the
output for continuity, pair-writes the DAC, drives spoof-enable high and
sets `enabled`. -/
def BrakeModule.enable_control (m : BrakeModule) (adc : AdcInput) :
    BrakeModule × List Event :=
  if !m.control_state.enabled && !m.control_state.operator_override then
    let sig := m.brake_pedal_position.prevent_signal_discontinuity adc
    let a := sig.dac_output_a
    let b := sig.dac_output_b
    ({ m with
        brake_pedal_position := sig,
        spoof_enable_pin := true,
        control_state := { m.control_state with enabled := true } },
      [Event.dacWrite a b])
  else
    (m, [])

/-- `BrakeModule::update_brake` (`brake_module.rs`, lines 114-139): only
while enabled, clamps each spoof command to its configured range, drives
the brake light from the clamped values, and pair-writes the DAC. The
`Result` of `output_ab` is discarded by the source. -/
def BrakeModule.update_brake (cfg : Config) (m : BrakeModule)
    (spoof_command_high spoof_command_low : Nat) : BrakeModule × List Event :=
  if m.control_state.enabled then
    let spoof_high := clamp spoof_command_high
      cfg.BRAKE_SPOOF_HIGH_SIGNAL_RANGE_MIN cfg.BRAKE_SPOOF_HIGH_SIGNAL_RANGE_MAX
    let spoof_low := clamp spoof_command_low
      cfg.BRAKE_SPOOF_LOW_SIGNAL_RANGE_MIN cfg.BRAKE_SPOOF_LOW_SIGNAL_RANGE_MAX
    let light := spoof_high > cfg.BRAKE_LIGHT_SPOOF_HIGH_THRESHOLD
      || spoof_low > cfg.BRAKE_LIGHT_SPOOF_LOW_THRESHOLD
    ({ m with brake_light_pin := light }, [Event.dacWrite spoof_high spoof_low])
  else
    (m, [])

/-- `BrakeModule::publish_brake_report` (`brake_module.rs`, lines
199-205): copies the control state into the report and transmits it. -/
def BrakeModule.publish_brake_report (m : BrakeModule) : BrakeModule × List Event :=
  let r : OsccBrakeReport :=
    { enabled := m.control_state.enabled,
      operator_override := m.control_state.operator_override,
      dtcs := m.control_state.dtcs }
  ({ m with brake_report := r },
    [Event.canBrakeReport r.enabled r.operator_override r.dtcs])

/-- `BrakeModule::publish_fault_report` (`brake_module.rs`, lines
207-212): stamps the fixed brake origin id and current dtcs into the
fault report frame and transmits it. -/
def BrakeModule.publish_fault_report (cfg : Config) (m : BrakeModule) :
    BrakeModule × List Event :=
  let fr : OsccFaultReport :=
    { fault_origin_id := cfg.FAULT_ORIGIN_BRAKE, dtcs := m.control_state.dtcs }
  ({ m with fault_report_frame := fr },
    [Event.canFaultReport fr.fault_origin_id fr.dtcs])

/-- The fault-handling branch of `BrakeModule::check_for_faults`
(`brake_module.rs`, lines 161-195), factored over the two confirmed
booleans computed by the latches: grounded sensors take priority
(disable, set the invalid-sensor DTC, publish a fault report); else a
newly confirmed operator override (flag not yet set) disables, sets the
override DTC, publishes a fault report and sets the flag; else both DTCs
and the override flag are cleared. -/
def BrakeModule.check_faults_core (cfg : Config) (m : BrakeModule)
    (inputs_grounded operator_overridden : Bool) (adc : AdcInput) :
    BrakeModule × List Event :=
  if inputs_grounded then
    let r1 := m.disable_control adc
    let m2 := { r1.1 with control_state :=
      { r1.1.control_state with
          dtcs := dtc_set r1.1.control_state.dtcs OSCC_BRAKE_DTC_INVALID_SENSOR_VAL } }
    let r2 := BrakeModule.publish_fault_report cfg m2
    (r2.1, r1.2 ++ r2.2)
  else if operator_overridden && !m.control_state.operator_override then
    let r1 := m.disable_control adc
    let m2 := { r1.1 with control_state :=
      { r1.1.control_state with
          dtcs := dtc_set r1.1.control_state.dtcs OSCC_BRAKE_DTC_OPERATOR_OVERRIDE } }
    let r2 := BrakeModule.publish_fault_report cfg m2
    let m3 := { r2.1 with control_state :=
      { r2.1.control_state with operator_override := true } }
    (m3, r1.2 ++ r2.2)
  else
    ({ m with control_state :=
        { m.control_state with dtcs := 0, operator_override := false } }, [])

/-- `BrakeModule::check_for_faults` (`brake_module.rs`, lines 141-197):
only while enabled or with a DTC latched, refreshes the sensor readings,
evaluates the operator-override latch on `average >= threshold`, then the
grounded latch, then runs the fault-handling branch
(`check_faults_core`). Otherwise a complete no-op. -/
def BrakeModule.check_for_faults (cfg : Config) (m : BrakeModule) (inp : CycleInput) :
    BrakeModule × List Event :=
  if m.control_state.enabled || decide (0 < m.control_state.dtcs) then
    let m1 := { m with
      brake_pedal_position := m.brake_pedal_position.update inp.adc }
    let avg := m1.brake_pedal_position.average
    let ov := m1.operator_override_state.condition_exceeded_duration
      (decide (avg ≥ cfg.BRAKE_PEDAL_OVERRIDE_THRESHOLD)) cfg.FAULT_HYSTERESIS inp.now
    let m2 := { m1 with operator_override_state := ov.1 }
    let gr := m2.grounded_fault_state.check_voltage_grounded
      m2.brake_pedal_position cfg.FAULT_HYSTERESIS inp.now
    let m3 := { m2 with grounded_fault_state := gr.1 }
    BrakeModule.check_faults_core cfg m3 gr.2 ov.2 inp.adc
  else
    (m, [])

/-- `check_for_faults` with the two latch outputs ("confirmed" booleans)
abstracted as oracle inputs: the entry guard (`brake_module.rs`, line
142) and the fault-handling branch (lines 161-195) exactly as in the
source, with `inputs_grounded` / `operator_overridden` supplied per
cycle instead of computed from the latches. -/
def BrakeModule.check_for_faults_oracle (cfg : Config) (m : BrakeModule)
    (inputs_grounded operator_overridden : Bool) (adc : AdcInput) :
    BrakeModule × List Event :=
  if m.control_state.enabled || decide (0 < m.control_state.dtcs) then
    BrakeModule.check_faults_core cfg m inputs_grounded operator_overridden adc
  else
    (m, [])

/-- `BrakeModule::process_brake_command` (`brake_module.rs`, lines
244-267): the clamp / position-to-volts / steps-per-volt pipeline
(floating point, modelled from the spec as `cfg.spoof_translate`) feeds
`update_brake`. -/
def BrakeModule.process_brake_command (cfg : Config) (m : BrakeModule)
    (pedal_command : Nat) : BrakeModule × List Event :=
  let sp := cfg.spoof_translate pedal_command
  BrakeModule.update_brake cfg m sp.1 sp.2

/-- `BrakeModule::process_fault_report` (`brake_module.rs`, lines
234-242): unconditionally disables (plus a debug log). -/
def BrakeModule.process_fault_report (m : BrakeModule)
    (_fault_origin_id _dtcs : Nat) (adc : AdcInput) : BrakeModule × List Event :=
  m.disable_control adc

/-- A CAN frame as seen by `process_rx_frame`: a data frame with an id
and payload bytes, or a remote frame (ignored by the source). -/
inductive CanFrame where
  | dataFrame (id : Nat) (data : List Nat)
  | remoteFrame (id : Nat)
deriving DecidableEq, Repr

/-- `BrakeModule::process_rx_frame` (`brake_module.rs`, lines 215-232):
only data frames whose first two payload bytes are the OSCC magic marker
are routed, by CAN id, to enable / disable / brake command / fault
report; everything else is ignored. -/
def BrakeModule.process_rx_frame (cfg : Config) (m : BrakeModule)
    (frame : CanFrame) (adc : AdcInput) : BrakeModule × List Event :=
  match frame with
  | CanFrame.remoteFrame _ => (m, [])
  | CanFrame.dataFrame id data =>
    if data.getD 0 0 == cfg.OSCC_MAGIC_BYTE_0
        && data.getD 1 0 == cfg.OSCC_MAGIC_BYTE_1 then
      if id == cfg.OSCC_BRAKE_ENABLE_CAN_ID then
        m.enable_control adc
      else if id == cfg.OSCC_BRAKE_DISABLE_CAN_ID then
        m.disable_control adc
      else if id == cfg.OSCC_BRAKE_COMMAND_CAN_ID then
        BrakeModule.process_brake_command cfg m (cfg.parse_pedal_command data)
      else if id == cfg.OSCC_FAULT_REPORT_CAN_ID then
        let fr := cfg.parse_fault_report data
        m.process_fault_report fr.1 fr.2 adc
      else
        (m, [])
    else
      (m, [])

/-! ## Helpers for stating the temporal properties -/

/-- Number of fault-report CAN transmissions in an event trace. -/
def countFaultReports (evs : List Event) : Nat :=
  (evs.filter fun e => match e with
    | Event.canFaultReport _ _ => true
    | _ => false).length

/-- Number of DAC pair-writes in an event trace. -/
def countDacWrites (evs : List Event) : Nat :=
  (evs.filter fun e => match e with
    | Event.dacWrite _ _ => true
    | _ => false).length

/-- Iterate `check_for_faults` over one continuous operator-override
episode: on every cycle the grounded latch reports not-confirmed and the
override latch reports confirmed (the oracle inputs `false` / `true`),
with arbitrary ADC readings per cycle. Returns the final state and the
concatenated event trace. -/
def BrakeModule.run_override_cycles (cfg : Config) (m : BrakeModule)
    (adcs : List AdcInput) : BrakeModule × List Event :=
  match adcs with
  | [] => (m, [])
  | a :: rest =>
    let r := m.check_for_faults_oracle cfg false true a
    let rr := BrakeModule.run_override_cycles cfg r.1 rest
    (rr.1, r.2 ++ rr.2)

/-! ## Concrete instances used by witnesses and counterexamples -/

/-- A concrete configuration for evaluating the model: representative
values for the vehicle constants, OSCC magic bytes and CAN ids, and a
simple translation/parsing stand-in. -/
def cfgDemo : Config :=
  { BRAKE_SPOOF_HIGH_SIGNAL_RANGE_MIN := 1000,
    BRAKE_SPOOF_HIGH_SIGNAL_RANGE_MAX := 2000,
    BRAKE_SPOOF_LOW_SIGNAL_RANGE_MIN := 100,
    BRAKE_SPOOF_LOW_SIGNAL_RANGE_MAX := 900,
    BRAKE_LIGHT_SPOOF_HIGH_THRESHOLD := 1500,
    BRAKE_LIGHT_SPOOF_LOW_THRESHOLD := 600,
    BRAKE_PEDAL_OVERRIDE_THRESHOLD := 500,
    FAULT_HYSTERESIS := 10,
    OSCC_MAGIC_BYTE_0 := 0x05,
    OSCC_MAGIC_BYTE_1 := 0xCC,
    OSCC_BRAKE_ENABLE_CAN_ID := 0x70,
    OSCC_BRAKE_DISABLE_CAN_ID := 0x71,
    OSCC_BRAKE_COMMAND_CAN_ID := 0x72,
    OSCC_FAULT_REPORT_CAN_ID := 0xAF,
    FAULT_ORIGIN_BRAKE := 0,
    spoof_translate := fun p => (1000 + p, 100 + p),
    parse_pedal_command := fun d => d.getD 2 0,
    parse_fault_report := fun d => (d.getD 2 0, d.getD 3 0) }

/-- A module in the enabled state (after a successful `enable_control`),
with no override and no DTCs latched. -/
def mDemoEnabled : BrakeModule :=
  { BrakeModule.new with
      spoof_enable_pin := true,
      control_state := { enabled := true, operator_override := false, dtcs := 0 } }

/-! ## Claim theorems -/

set_option maxRecDepth 4000 in
/-- All 12-bit values, split as `v = 256 * hi + lo` to keep the
decision procedure's recursion shallow: the bit layout of the
`Mcp4922::output` command word on both channels. -/
theorem mcp4922_buffer_bits_aux :
    ∀ hi : Nat, hi < 16 → ∀ lo : Nat, lo < 256 →
      ((mcp4922_buffer (256 * hi + lo) Channel.ChannelA).2 = (256 * hi + lo) % 256 ∧
       (mcp4922_buffer (256 * hi + lo) Channel.ChannelA).1 % 16 = (256 * hi + lo) / 256 ∧
       (mcp4922_buffer (256 * hi + lo) Channel.ChannelA).1.testBit 4 = true ∧
       (mcp4922_buffer (256 * hi + lo) Channel.ChannelA).1.testBit 6 = false ∧
       (mcp4922_buffer (256 * hi + lo) Channel.ChannelA).1.testBit 7 = false) ∧
      ((mcp4922_buffer (256 * hi + lo) Channel.ChannelB).2 = (256 * hi + lo) % 256 ∧
       (mcp4922_buffer (256 * hi + lo) Channel.ChannelB).1 % 16 = (256 * hi + lo) / 256 ∧
       (mcp4922_buffer (256 * hi + lo) Channel.ChannelB).1.testBit 4 = true ∧
       (mcp4922_buffer (256 * hi + lo) Channel.ChannelB).1.testBit 6 = false ∧
       (mcp4922_buffer (256 * hi + lo) Channel.ChannelB).1.testBit 7 = true) := by
  decide

/-- C7: for every 12-bit value `v` and each channel, `Mcp4922::output`
builds the 2-byte word with the low byte holding bits 7-0 of `v`, the
high byte holding bits 11-8 in its low nibble, the active/shutdown bit
(bit 4) set, the gain bit (bit 6) clear, and the channel bit (bit 7)
clear for channel A and set for channel B; in particular 0 on channel A
encodes to `(0x10, 0x00)` and 4095 on channel B to `(0x9F, 0xFF)`. -/
theorem c7_mcp4922_output_encoding :
    (∀ v : Nat, v < 4096 →
      ((mcp4922_buffer v Channel.ChannelA).2 = v % 256 ∧
       (mcp4922_buffer v Channel.ChannelA).1 % 16 = v / 256 ∧
       (mcp4922_buffer v Channel.ChannelA).1.testBit 4 = true ∧
       (mcp4922_buffer v Channel.ChannelA).1.testBit 6 = false ∧
       (mcp4922_buffer v Channel.ChannelA).1.testBit 7 = false) ∧
      ((mcp4922_buffer v Channel.ChannelB).2 = v % 256 ∧
       (mcp4922_buffer v Channel.ChannelB).1 % 16 = v / 256 ∧
       (mcp4922_buffer v Channel.ChannelB).1.testBit 4 = true ∧
       (mcp4922_buffer v Channel.ChannelB).1.testBit 6 = false ∧
       (mcp4922_buffer v Channel.ChannelB).1.testBit 7 = true)) ∧
    mcp4922_buffer 0 Channel.ChannelA = (0x10, 0x00) ∧
    mcp4922_buffer 4095 Channel.ChannelB = (0x9F, 0xFF) := by
  refine ⟨?_, by decide, by decide⟩
  intro v hv
  have h := mcp4922_buffer_bits_aux (v / 256) (by omega) (v % 256)
    (Nat.mod_lt _ (by decide))
  rwa [Nat.div_add_mod v 256] at h

/-- Witness for C7 at the 12-bit value 2748 (0xABC). -/
theorem c7_mcp4922_output_encoding_witness :
    ((mcp4922_buffer 2748 Channel.ChannelA).2 = 2748 % 256 ∧
     (mcp4922_buffer 2748 Channel.ChannelA).1 % 16 = 2748 / 256 ∧
     (mcp4922_buffer 2748 Channel.ChannelA).1.testBit 4 = true ∧
     (mcp4922_buffer 2748 Channel.ChannelA).1.testBit 6 = false ∧
     (mcp4922_buffer 2748 Channel.ChannelA).1.testBit 7 = false) ∧
    ((mcp4922_buffer 2748 Channel.ChannelB).2 = 2748 % 256 ∧
     (mcp4922_buffer 2748 Channel.ChannelB).1 % 16 = 2748 / 256 ∧
     (mcp4922_buffer 2748 Channel.ChannelB).1.testBit 4 = true ∧
     (mcp4922_buffer 2748 Channel.ChannelB).1.testBit 6 = false ∧
     (mcp4922_buffer 2748 Channel.ChannelB).1.testBit 7 = true) :=
  c7_mcp4922_output_encoding.1 2748 (by decide)

/-- C8: `Mcp4922::output` deasserts chip select (drives it high) after
the transfer whether or not the SPI write succeeded, and returns `Ok(())`
exactly when the write succeeds and the SPI error otherwise. -/
theorem c8_output_cs_deassert_and_result (ε : Type) (data : Nat) (channel : Channel)
    (spiErr : Option ε) :
    (mcp_output data channel spiErr).cs_levels.getLast? = some true ∧
    (mcp_output data channel spiErr).result =
      (match spiErr with
        | none => Except.ok ()
        | some e => Except.error e) := by
  cases spiErr <;> exact ⟨rfl, rfl⟩

/-- C4 (exhibit of the divergence): a failed SPI transfer during an
`output_ab` pair-write surfaces as an error from `output_ab` (here the
channel-B transfer fails after channel A was updated, the torn case),
but `update_brake` — the only brake-module caller — discards that
`Result`: its state transition does not depend on the transfer outcome
at all, so the module stays enabled, latches no DTC and publishes no
fault report. -/
theorem c4_transfer_error_not_handled :
    (mcp_output_ab 1500 500 (none : Option Nat) (some 7)).result = Except.error 7 ∧
    (BrakeModule.update_brake cfgDemo mDemoEnabled 1500 500).1.control_state.enabled = true ∧
    (BrakeModule.update_brake cfgDemo mDemoEnabled 1500 500).1.control_state.dtcs =
      mDemoEnabled.control_state.dtcs ∧
    (BrakeModule.update_brake cfgDemo mDemoEnabled 1500 500).2 =
      [Event.dacWrite 1500 500] :=
  ⟨rfl, rfl, rfl, rfl⟩

/-- C6: calling `update_brake` while the module is not enabled changes
nothing, for every pair of arguments: no DAC write, no brake-light
change, all state unchanged. -/
theorem c6_update_brake_disabled_noop (cfg : Config) (m : BrakeModule)
    (spoof_command_high spoof_command_low : Nat)
    (h : m.control_state.enabled = false) :
    BrakeModule.update_brake cfg m spoof_command_high spoof_command_low = (m, []) := by
  simp [BrakeModule.update_brake, h]

/-- Witness for C6: the freshly constructed (disabled) module, with
out-of-range arguments. -/
theorem c6_update_brake_disabled_noop_witness :
    BrakeModule.new.control_state.enabled = false ∧
    BrakeModule.update_brake cfgDemo BrakeModule.new 65535 0 = (BrakeModule.new, []) :=
  ⟨rfl, c6_update_brake_disabled_noop cfgDemo BrakeModule.new 65535 0 rfl⟩

/-- C10: while not enabled and with `dtcs = 0`, `check_for_faults` is a
complete no-op: the sensor readings are not refreshed, neither fault
latch advances, nothing is written to the DAC or pins, and every field
of the module state is unchanged. -/
theorem c10_check_for_faults_idle_noop (cfg : Config) (m : BrakeModule)
    (inp : CycleInput)
    (h1 : m.control_state.enabled = false) (h2 : m.control_state.dtcs = 0) :
    BrakeModule.check_for_faults cfg m inp = (m, []) := by
  simp [BrakeModule.check_for_faults, h1, h2]

/-- Witness for C10: the freshly constructed module with nonzero sensor
readings and a nonzero clock offered to the cycle. -/
theorem c10_check_for_faults_idle_noop_witness :
    BrakeModule.new.control_state.enabled = false ∧
    BrakeModule.new.control_state.dtcs = 0 ∧
    BrakeModule.check_for_faults cfgDemo BrakeModule.new
      { adc := { high := 1234, low := 567 }, now := 89 } = (BrakeModule.new, []) :=
  ⟨rfl, rfl, c10_check_for_faults_idle_noop cfgDemo BrakeModule.new
    { adc := { high := 1234, low := 567 }, now := 89 } rfl rfl⟩

/-- `num::clamp` lands in `[min, max]`, and out-of-range inputs land on
the violated boundary. -/
theorem clamp_spec (input min max : Nat) (h : min ≤ max) :
    min ≤ clamp input min max ∧ clamp input min max ≤ max ∧
    (input < min → clamp input min max = min) ∧
    (max < input → clamp input min max = max) ∧
    (min ≤ input → input ≤ max → clamp input min max = input) := by
  refine ⟨?_, ?_, ?_, ?_, ?_⟩ <;> unfold clamp <;> split_ifs <;> omega

/-- C5: while enabled, `update_brake` sends to channel A exactly the
high command clamped into
`[BRAKE_SPOOF_HIGH_SIGNAL_RANGE_MIN, BRAKE_SPOOF_HIGH_SIGNAL_RANGE_MAX]`
and to channel B the low command clamped into
`[BRAKE_SPOOF_LOW_SIGNAL_RANGE_MIN, BRAKE_SPOOF_LOW_SIGNAL_RANGE_MAX]`;
both sent values lie in their ranges, and an out-of-range argument
results in the violated boundary being sent, never the raw input. -/
theorem c5_update_brake_clamps (cfg : Config) (m : BrakeModule)
    (spoof_command_high spoof_command_low : Nat)
    (hen : m.control_state.enabled = true)
    (hh : cfg.BRAKE_SPOOF_HIGH_SIGNAL_RANGE_MIN ≤ cfg.BRAKE_SPOOF_HIGH_SIGNAL_RANGE_MAX)
    (hl : cfg.BRAKE_SPOOF_LOW_SIGNAL_RANGE_MIN ≤ cfg.BRAKE_SPOOF_LOW_SIGNAL_RANGE_MAX) :
    (BrakeModule.update_brake cfg m spoof_command_high spoof_command_low).2 =
      [Event.dacWrite
        (clamp spoof_command_high cfg.BRAKE_SPOOF_HIGH_SIGNAL_RANGE_MIN
          cfg.BRAKE_SPOOF_HIGH_SIGNAL_RANGE_MAX)
        (clamp spoof_command_low cfg.BRAKE_SPOOF_LOW_SIGNAL_RANGE_MIN
          cfg.BRAKE_SPOOF_LOW_SIGNAL_RANGE_MAX)] ∧
    cfg.BRAKE_SPOOF_HIGH_SIGNAL_RANGE_MIN ≤
      clamp spoof_command_high cfg.BRAKE_SPOOF_HIGH_SIGNAL_RANGE_MIN
        cfg.BRAKE_SPOOF_HIGH_SIGNAL_RANGE_MAX ∧
    clamp spoof_command_high cfg.BRAKE_SPOOF_HIGH_SIGNAL_RANGE_MIN
        cfg.BRAKE_SPOOF_HIGH_SIGNAL_RANGE_MAX ≤
      cfg.BRAKE_SPOOF_HIGH_SIGNAL_RANGE_MAX ∧
    cfg.BRAKE_SPOOF_LOW_SIGNAL_RANGE_MIN ≤
      clamp spoof_command_low cfg.BRAKE_SPOOF_LOW_SIGNAL_RANGE_MIN
        cfg.BRAKE_SPOOF_LOW_SIGNAL_RANGE_MAX ∧
    clamp spoof_command_low cfg.BRAKE_SPOOF_LOW_SIGNAL_RANGE_MIN
        cfg.BRAKE_SPOOF_LOW_SIGNAL_RANGE_MAX ≤
      cfg.BRAKE_SPOOF_LOW_SIGNAL_RANGE_MAX ∧
    (spoof_command_high < cfg.BRAKE_SPOOF_HIGH_SIGNAL_RANGE_MIN →
      clamp spoof_command_high cfg.BRAKE_SPOOF_HIGH_SIGNAL_RANGE_MIN
        cfg.BRAKE_SPOOF_HIGH_SIGNAL_RANGE_MAX = cfg.BRAKE_SPOOF_HIGH_SIGNAL_RANGE_MIN) ∧
    (cfg.BRAKE_SPOOF_HIGH_SIGNAL_RANGE_MAX < spoof_command_high →
      clamp spoof_command_high cfg.BRAKE_SPOOF_HIGH_SIGNAL_RANGE_MIN
        cfg.BRAKE_SPOOF_HIGH_SIGNAL_RANGE_MAX = cfg.BRAKE_SPOOF_HIGH_SIGNAL_RANGE_MAX) ∧
    (spoof_command_low < cfg.BRAKE_SPOOF_LOW_SIGNAL_RANGE_MIN →
      clamp spoof_command_low cfg.BRAKE_SPOOF_LOW_SIGNAL_RANGE_MIN
        cfg.BRAKE_SPOOF_LOW_SIGNAL_RANGE_MAX = cfg.BRAKE_SPOOF_LOW_SIGNAL_RANGE_MIN) ∧
    (cfg.BRAKE_SPOOF_LOW_SIGNAL_RANGE_MAX < spoof_command_low →
      clamp spoof_command_low cfg.BRAKE_SPOOF_LOW_SIGNAL_RANGE_MIN
        cfg.BRAKE_SPOOF_LOW_SIGNAL_RANGE_MAX = cfg.BRAKE_SPOOF_LOW_SIGNAL_RANGE_MAX) := by
  have h1 := clamp_spec spoof_command_high cfg.BRAKE_SPOOF_HIGH_SIGNAL_RANGE_MIN
    cfg.BRAKE_SPOOF_HIGH_SIGNAL_RANGE_MAX hh
  have h2 := clamp_spec spoof_command_low cfg.BRAKE_SPOOF_LOW_SIGNAL_RANGE_MIN
    cfg.BRAKE_SPOOF_LOW_SIGNAL_RANGE_MAX hl
  refine ⟨?_, h1.1, h1.2.1, h2.1, h2.2.1, h1.2.2.1, h1.2.2.2.1, h2.2.2.1, h2.2.2.2.1⟩
  simp [BrakeModule.update_brake, hen]

/-- Witness for C5: the enabled demo module commanded with a high value
above the high range and a low value below the low range. -/
theorem c5_update_brake_clamps_witness :
    mDemoEnabled.control_state.enabled = true ∧
    cfgDemo.BRAKE_SPOOF_HIGH_SIGNAL_RANGE_MIN ≤ cfgDemo.BRAKE_SPOOF_HIGH_SIGNAL_RANGE_MAX ∧
    cfgDemo.BRAKE_SPOOF_LOW_SIGNAL_RANGE_MIN ≤ cfgDemo.BRAKE_SPOOF_LOW_SIGNAL_RANGE_MAX ∧
    ((BrakeModule.update_brake cfgDemo mDemoEnabled 5000 0).2 =
      [Event.dacWrite
        (clamp 5000 cfgDemo.BRAKE_SPOOF_HIGH_SIGNAL_RANGE_MIN
          cfgDemo.BRAKE_SPOOF_HIGH_SIGNAL_RANGE_MAX)
        (clamp 0 cfgDemo.BRAKE_SPOOF_LOW_SIGNAL_RANGE_MIN
          cfgDemo.BRAKE_SPOOF_LOW_SIGNAL_RANGE_MAX)] ∧
    cfgDemo.BRAKE_SPOOF_HIGH_SIGNAL_RANGE_MIN ≤
      clamp 5000 cfgDemo.BRAKE_SPOOF_HIGH_SIGNAL_RANGE_MIN
        cfgDemo.BRAKE_SPOOF_HIGH_SIGNAL_RANGE_MAX ∧
    clamp 5000 cfgDemo.BRAKE_SPOOF_HIGH_SIGNAL_RANGE_MIN
        cfgDemo.BRAKE_SPOOF_HIGH_SIGNAL_RANGE_MAX ≤
      cfgDemo.BRAKE_SPOOF_HIGH_SIGNAL_RANGE_MAX ∧
    cfgDemo.BRAKE_SPOOF_LOW_SIGNAL_RANGE_MIN ≤
      clamp 0 cfgDemo.BRAKE_SPOOF_LOW_SIGNAL_RANGE_MIN
        cfgDemo.BRAKE_SPOOF_LOW_SIGNAL_RANGE_MAX ∧
    clamp 0 cfgDemo.BRAKE_SPOOF_LOW_SIGNAL_RANGE_MIN
        cfgDemo.BRAKE_SPOOF_LOW_SIGNAL_RANGE_MAX ≤
      cfgDemo.BRAKE_SPOOF_LOW_SIGNAL_RANGE_MAX ∧
    (5000 < cfgDemo.BRAKE_SPOOF_HIGH_SIGNAL_RANGE_MIN →
      clamp 5000 cfgDemo.BRAKE_SPOOF_HIGH_SIGNAL_RANGE_MIN
        cfgDemo.BRAKE_SPOOF_HIGH_SIGNAL_RANGE_MAX =
        cfgDemo.BRAKE_SPOOF_HIGH_SIGNAL_RANGE_MIN) ∧
    (cfgDemo.BRAKE_SPOOF_HIGH_SIGNAL_RANGE_MAX < 5000 →
      clamp 5000 cfgDemo.BRAKE_SPOOF_HIGH_SIGNAL_RANGE_MIN
        cfgDemo.BRAKE_SPOOF_HIGH_SIGNAL_RANGE_MAX =
        cfgDemo.BRAKE_SPOOF_HIGH_SIGNAL_RANGE_MAX) ∧
    (0 < cfgDemo.BRAKE_SPOOF_LOW_SIGNAL_RANGE_MIN →
      clamp 0 cfgDemo.BRAKE_SPOOF_LOW_SIGNAL_RANGE_MIN
        cfgDemo.BRAKE_SPOOF_LOW_SIGNAL_RANGE_MAX =
        cfgDemo.BRAKE_SPOOF_LOW_SIGNAL_RANGE_MIN) ∧
    (cfgDemo.BRAKE_SPOOF_LOW_SIGNAL_RANGE_MAX < 0 →
      clamp 0 cfgDemo.BRAKE_SPOOF_LOW_SIGNAL_RANGE_MIN
        cfgDemo.BRAKE_SPOOF_LOW_SIGNAL_RANGE_MAX =
        cfgDemo.BRAKE_SPOOF_LOW_SIGNAL_RANGE_MAX)) :=
  ⟨rfl, by decide, by decide,
    c5_update_brake_clamps cfgDemo mDemoEnabled 5000 0 rfl (by decide) (by decide)⟩

/-- The control-state invariant of the brake module: a flagged operator
override implies the module is disabled. -/
def ControlInv (m : BrakeModule) : Prop :=
  m.control_state.operator_override = true → m.control_state.enabled = false

/-- `disable_control` always leaves `enabled = false` (it either
transitions to disabled or was already disabled). -/
theorem disable_control_enabled (m : BrakeModule) (adc : AdcInput) :
    (m.disable_control adc).1.control_state.enabled = false := by
  unfold BrakeModule.disable_control
  split
  next => rfl
  next hc => simpa using hc

/-- `disable_control` never touches the override flag. -/
theorem disable_control_override (m : BrakeModule) (adc : AdcInput) :
    (m.disable_control adc).1.control_state.operator_override =
      m.control_state.operator_override := by
  unfold BrakeModule.disable_control
  split <;> rfl

/-- `disable_control` never touches the DTC bitfield. -/
theorem disable_control_dtcs (m : BrakeModule) (adc : AdcInput) :
    (m.disable_control adc).1.control_state.dtcs = m.control_state.dtcs := by
  unfold BrakeModule.disable_control
  split <;> rfl

theorem controlInv_disable_control (m : BrakeModule) (adc : AdcInput)
    (_h : ControlInv m) : ControlInv (m.disable_control adc).1 :=
  fun _ => disable_control_enabled m adc

theorem controlInv_enable_control (m : BrakeModule) (adc : AdcInput)
    (h : ControlInv m) : ControlInv (m.enable_control adc).1 := by
  unfold ControlInv BrakeModule.enable_control at *
  split
  next hc =>
    intro hov
    simp only [Bool.and_eq_true, Bool.not_eq_true'] at hc
    simp only at hov
    rw [hov] at hc
    exact absurd hc.2 (by decide)
  next => exact h

theorem controlInv_update_brake (cfg : Config) (m : BrakeModule)
    (spoof_command_high spoof_command_low : Nat) (h : ControlInv m) :
    ControlInv (BrakeModule.update_brake cfg m spoof_command_high spoof_command_low).1 := by
  unfold ControlInv BrakeModule.update_brake at *
  split
  next => exact h
  next => exact h

theorem controlInv_check_faults_core (cfg : Config) (m : BrakeModule)
    (inputs_grounded operator_overridden : Bool) (adc : AdcInput) :
    ControlInv (BrakeModule.check_faults_core cfg m inputs_grounded operator_overridden adc).1 := by
  unfold ControlInv BrakeModule.check_faults_core
  split
  next => intro _; exact disable_control_enabled m adc
  next =>
    split
    next => intro _; exact disable_control_enabled m adc
    next => intro hov; simp only at hov; cases hov

theorem controlInv_check_for_faults (cfg : Config) (m : BrakeModule)
    (inp : CycleInput) (h : ControlInv m) :
    ControlInv (BrakeModule.check_for_faults cfg m inp).1 := by
  unfold BrakeModule.check_for_faults
  split
  next => exact controlInv_check_faults_core cfg _ _ _ _
  next => exact h

theorem controlInv_process_rx_frame (cfg : Config) (m : BrakeModule)
    (frame : CanFrame) (adc : AdcInput) (h : ControlInv m) :
    ControlInv (BrakeModule.process_rx_frame cfg m frame adc).1 := by
  cases frame with
  | remoteFrame id => exact h
  | dataFrame id data =>
    simp only [BrakeModule.process_rx_frame]
    split
    next =>
      split
      next => exact controlInv_enable_control m adc h
      next =>
        split
        next => exact controlInv_disable_control m adc h
        next =>
          split
          next => exact controlInv_update_brake cfg m _ _ h
          next =>
            split
            next => exact controlInv_disable_control m adc h
            next => exact h
    next => exact h

/-- C3: the invariant `operator_override = true → enabled = false` holds
in the initial state and is preserved by every public operation of the
brake module; moreover `enable_control` is a no-op whenever
`operator_override` is set (so the override flag is only ever set with
the module disabled, right after the disable in `check_for_faults`). -/
theorem c3_override_invariant (cfg : Config) (m : BrakeModule) (adc : AdcInput)
    (inp : CycleInput) (spoof_command_high spoof_command_low : Nat) (frame : CanFrame)
    (h : ControlInv m) :
    ControlInv BrakeModule.new ∧
    ControlInv (m.enable_control adc).1 ∧
    ControlInv (m.disable_control adc).1 ∧
    ControlInv (BrakeModule.update_brake cfg m spoof_command_high spoof_command_low).1 ∧
    ControlInv (BrakeModule.check_for_faults cfg m inp).1 ∧
    ControlInv (BrakeModule.process_rx_frame cfg m frame adc).1 ∧
    ControlInv m.publish_brake_report.1 ∧
    ControlInv (BrakeModule.publish_fault_report cfg m).1 ∧
    (m.control_state.operator_override = true → m.enable_control adc = (m, [])) := by
  refine ⟨fun _ => rfl,
    controlInv_enable_control m adc h,
    controlInv_disable_control m adc h,
    controlInv_update_brake cfg m _ _ h,
    controlInv_check_for_faults cfg m inp h,
    controlInv_process_rx_frame cfg m frame adc h,
    h, h, ?_⟩
  intro hov
  unfold BrakeModule.enable_control
  simp [hov]

/-- A module in the overridden state: disabled, override flagged, with
the operator-override DTC latched (the state `check_for_faults` produces
on the cycle that confirms an override). -/
def mDemoOverridden : BrakeModule :=
  { BrakeModule.new with
      control_state := { enabled := false, operator_override := true, dtcs := 2 } }

/-- Witness for C3: the overridden demo module, an inbound enable frame
carrying the magic marker, and a mid-range command. -/
theorem c3_override_invariant_witness :
    ControlInv mDemoOverridden ∧
    (ControlInv BrakeModule.new ∧
     ControlInv (mDemoOverridden.enable_control { high := 100, low := 200 }).1 ∧
     ControlInv (mDemoOverridden.disable_control { high := 100, low := 200 }).1 ∧
     ControlInv (BrakeModule.update_brake cfgDemo mDemoOverridden 1500 500).1 ∧
     ControlInv (BrakeModule.check_for_faults cfgDemo mDemoOverridden
       { adc := { high := 300, low := 400 }, now := 50 }).1 ∧
     ControlInv (BrakeModule.process_rx_frame cfgDemo mDemoOverridden
       (CanFrame.dataFrame 0x70 [0x05, 0xCC]) { high := 100, low := 200 }).1 ∧
     ControlInv mDemoOverridden.publish_brake_report.1 ∧
     ControlInv (BrakeModule.publish_fault_report cfgDemo mDemoOverridden).1 ∧
     (mDemoOverridden.control_state.operator_override = true →
       mDemoOverridden.enable_control { high := 100, low := 200 } = (mDemoOverridden, []))) :=
  ⟨fun _ => rfl,
   c3_override_invariant cfgDemo mDemoOverridden { high := 100, low := 200 }
     { adc := { high := 300, low := 400 }, now := 50 } 1500 500
     (CanFrame.dataFrame 0x70 [0x05, 0xCC]) (fun _ => rfl)⟩

/-- On the cycle that first confirms an operator override (module
enabled, flag not yet set, grounded latch silent), the oracle check
performs the disable (one DAC priming write), publishes exactly one
fault report carrying the override DTC, and sets the override flag with
the module disabled. -/
theorem check_oracle_first_confirm (cfg : Config) (m : BrakeModule) (a : AdcInput)
    (hen : m.control_state.enabled = true)
    (hov : m.control_state.operator_override = false) :
    (m.check_for_faults_oracle cfg false true a).2 =
      [Event.dacWrite ((m.brake_pedal_position.prevent_signal_discontinuity a).dac_output_a)
         ((m.brake_pedal_position.prevent_signal_discontinuity a).dac_output_b),
       Event.canFaultReport cfg.FAULT_ORIGIN_BRAKE (dtc_set m.control_state.dtcs 1)] ∧
    (m.check_for_faults_oracle cfg false true a).1.control_state.enabled = false ∧
    (m.check_for_faults_oracle cfg false true a).1.control_state.operator_override = true := by
  unfold BrakeModule.check_for_faults_oracle BrakeModule.check_faults_core
    BrakeModule.disable_control BrakeModule.publish_fault_report
  refine ⟨?_, ?_, ?_⟩ <;>
    simp [hen, hov, OSCC_BRAKE_DTC_OPERATOR_OVERRIDE]

/-- Once the module is disabled and either the override flag is set or
no DTC is latched, a whole run of override-confirmed check cycles stays
silent: no events at all, and the state stays in that region. -/
theorem run_override_cycles_silent (cfg : Config) (rest : List AdcInput) :
    ∀ m : BrakeModule, m.control_state.enabled = false →
      (m.control_state.operator_override = true ∨ m.control_state.dtcs = 0) →
      (BrakeModule.run_override_cycles cfg m rest).2 = [] := by
  induction rest with
  | nil => intro m _ _; rfl
  | cons a rest ih =>
    intro m h1 h2
    have hstep : (m.check_for_faults_oracle cfg false true a).2 = [] ∧
        (m.check_for_faults_oracle cfg false true a).1.control_state.enabled = false ∧
        ((m.check_for_faults_oracle cfg false true a).1.control_state.operator_override = true ∨
          (m.check_for_faults_oracle cfg false true a).1.control_state.dtcs = 0) := by
      unfold BrakeModule.check_for_faults_oracle BrakeModule.check_faults_core
      rcases h2 with hov | hd
      · by_cases hdt : 0 < m.control_state.dtcs
        · simp [h1, hdt, hov]
        · simp [h1, hdt, hov]
      · simp [h1, hd]
    show ((BrakeModule.run_override_cycles cfg
        (m.check_for_faults_oracle cfg false true a).1 rest).1,
      (m.check_for_faults_oracle cfg false true a).2 ++
        (BrakeModule.run_override_cycles cfg
          (m.check_for_faults_oracle cfg false true a).1 rest).2).2 = []
    rw [hstep.1]
    simpa using ih (m.check_for_faults_oracle cfg false true a).1 hstep.2.1 hstep.2.2

/-- C1: during one continuous operator-override episode (the confirmed
override condition true and the grounded condition false on every
consecutive check cycle), starting enabled with the flag clear, the
fault check performs the disable and publishes a fault report exactly
once — on the first (confirming) cycle, which also sets the override
flag — and every later cycle of the episode emits no disable and no
fault report at all. -/
theorem c1_override_episode_single_report (cfg : Config) (m : BrakeModule)
    (a : AdcInput) (rest : List AdcInput)
    (hen : m.control_state.enabled = true)
    (hov : m.control_state.operator_override = false) :
    countFaultReports (BrakeModule.run_override_cycles cfg m (a :: rest)).2 = 1 ∧
    countDacWrites (BrakeModule.run_override_cycles cfg m (a :: rest)).2 = 1 ∧
    countFaultReports (m.check_for_faults_oracle cfg false true a).2 = 1 ∧
    countDacWrites (m.check_for_faults_oracle cfg false true a).2 = 1 ∧
    (m.check_for_faults_oracle cfg false true a).1.control_state.operator_override = true ∧
    (m.check_for_faults_oracle cfg false true a).1.control_state.enabled = false ∧
    (BrakeModule.run_override_cycles cfg
      (m.check_for_faults_oracle cfg false true a).1 rest).2 = [] := by
  obtain ⟨hev, hen', hov'⟩ := check_oracle_first_confirm cfg m a hen hov
  have hsil := run_override_cycles_silent cfg rest
    (m.check_for_faults_oracle cfg false true a).1 hen' (Or.inl hov')
  have hrun : (BrakeModule.run_override_cycles cfg m (a :: rest)).2 =
      (m.check_for_faults_oracle cfg false true a).2 ++
        (BrakeModule.run_override_cycles cfg
          (m.check_for_faults_oracle cfg false true a).1 rest).2 := rfl
  refine ⟨?_, ?_, ?_, ?_, hov', hen', hsil⟩ <;>
    simp [hrun, hev, hsil, countFaultReports, countDacWrites]

/-- Witness for C1: the enabled demo module, a three-cycle confirmed
override episode. -/
theorem c1_override_episode_single_report_witness :
    mDemoEnabled.control_state.enabled = true ∧
    mDemoEnabled.control_state.operator_override = false ∧
    (countFaultReports (BrakeModule.run_override_cycles cfgDemo mDemoEnabled
        [{ high := 4000, low := 4000 }, { high := 4000, low := 4000 },
         { high := 4000, low := 4000 }]).2 = 1 ∧
     countDacWrites (BrakeModule.run_override_cycles cfgDemo mDemoEnabled
        [{ high := 4000, low := 4000 }, { high := 4000, low := 4000 },
         { high := 4000, low := 4000 }]).2 = 1 ∧
     countFaultReports (mDemoEnabled.check_for_faults_oracle cfgDemo false true
        { high := 4000, low := 4000 }).2 = 1 ∧
     countDacWrites (mDemoEnabled.check_for_faults_oracle cfgDemo false true
        { high := 4000, low := 4000 }).2 = 1 ∧
     (mDemoEnabled.check_for_faults_oracle cfgDemo false true
        { high := 4000, low := 4000 }).1.control_state.operator_override = true ∧
     (mDemoEnabled.check_for_faults_oracle cfgDemo false true
        { high := 4000, low := 4000 }).1.control_state.enabled = false ∧
     (BrakeModule.run_override_cycles cfgDemo
        (mDemoEnabled.check_for_faults_oracle cfgDemo false true
          { high := 4000, low := 4000 }).1
        [{ high := 4000, low := 4000 }, { high := 4000, low := 4000 }]).2 = []) :=
  ⟨rfl, rfl,
   c1_override_episode_single_report cfgDemo mDemoEnabled
     { high := 4000, low := 4000 }
     [{ high := 4000, low := 4000 }, { high := 4000, low := 4000 }] rfl rfl⟩

/-- Setting a DTC bit always yields a nonzero bitfield. -/
theorem dtc_set_pos (dtcs bit : Nat) : 0 < dtc_set dtcs bit := by
  rcases Nat.eq_zero_or_pos (dtc_set dtcs bit) with h | h
  · exfalso
    have ht : (dtc_set dtcs bit).testBit bit = true := by
      unfold dtc_set
      rw [Nat.testBit_lor]
      have h2 : (1 <<< bit).testBit bit = true := by
        rw [Nat.shiftLeft_eq, one_mul]
        exact Nat.testBit_two_pow_self
      simp [h2]
    rw [h] at ht
    simp [Nat.zero_testBit] at ht
  · exact h

/-- The overridden state with the operator-override latch primed: the
state reached right after `check_for_faults` confirmed an override
(disabled, flag set, override DTC bit latched), with the raw override
condition still continuously true since time 0. -/
def mC2 : BrakeModule :=
  { BrakeModule.new with
      control_state := { enabled := false, operator_override := true, dtcs := 2 },
      operator_override_state := { condition_start_time := some 0 } }

/-- C2 counterexample: a check cycle on which the operator-override
latch confirms (pedal average 4000 ≥ threshold, continuously true for
100 ≥ hysteresis 10 time units) while the override flag is already set:
`check_for_faults` clears `dtcs` from 2 to 0 on this very cycle, so it
does clear `dtcs` on a cycle where a fault condition is confirmed. -/
theorem c2_counterexample :
    (mC2.operator_override_state.condition_exceeded_duration
        (decide (DualSignal.average { high := 4000, low := 4000 } ≥
          cfgDemo.BRAKE_PEDAL_OVERRIDE_THRESHOLD))
        cfgDemo.FAULT_HYSTERESIS 100).2 = true ∧
    mC2.control_state.dtcs = 2 ∧
    (BrakeModule.check_for_faults cfgDemo mC2
        { adc := { high := 4000, low := 4000 }, now := 100 }).1.control_state.dtcs = 0 :=
  ⟨rfl, rfl, rfl⟩

/-- C2 amended: on a cycle where the check body runs, `dtcs` is set to
zero exactly when the grounded-sensor fault is not confirmed and the
operator-override fault is either not confirmed or the override flag is
already set. (In particular `dtcs` is cleared on the cycle after an
override was flagged even though the override condition is still
confirmed.) -/
theorem c2_amended_dtcs_clear_iff (cfg : Config) (m : BrakeModule)
    (inputs_grounded operator_overridden : Bool) (adc : AdcInput)
    (hrun : m.control_state.enabled = true ∨ 0 < m.control_state.dtcs) :
    ((BrakeModule.check_for_faults_oracle cfg m inputs_grounded operator_overridden
        adc).1.control_state.dtcs = 0 ↔
      (inputs_grounded = false ∧
        (operator_overridden = false ∨ m.control_state.operator_override = true))) := by
  have hguard : (m.control_state.enabled || decide (0 < m.control_state.dtcs)) = true := by
    rcases hrun with he | hd
    · simp [he]
    · simp [hd]
  unfold BrakeModule.check_for_faults_oracle BrakeModule.check_faults_core
  rw [if_pos hguard]
  cases inputs_grounded with
  | true =>
    have hne0 : dtc_set ((m.disable_control adc).1.control_state.dtcs)
        OSCC_BRAKE_DTC_INVALID_SENSOR_VAL ≠ 0 :=
      Nat.pos_iff_ne_zero.mp (dtc_set_pos _ _)
    simp [BrakeModule.publish_fault_report, hne0]
  | false =>
    cases operator_overridden with
    | true =>
      cases hmo : m.control_state.operator_override with
      | true => simp [hmo]
      | false =>
        have hne0 : dtc_set ((m.disable_control adc).1.control_state.dtcs)
            OSCC_BRAKE_DTC_OPERATOR_OVERRIDE ≠ 0 :=
          Nat.pos_iff_ne_zero.mp (dtc_set_pos _ _)
        simp [BrakeModule.publish_fault_report, hmo, hne0]
    | false => simp

/-- Witness for C2's amended statement: the primed overridden state with
the override still confirmed — `dtcs` is indeed cleared. -/
theorem c2_amended_dtcs_clear_iff_witness :
    (mC2.control_state.enabled = true ∨ 0 < mC2.control_state.dtcs) ∧
    ((BrakeModule.check_for_faults_oracle cfgDemo mC2 false true
        { high := 4000, low := 4000 }).1.control_state.dtcs = 0 ↔
      (false = false ∧ (true = false ∨ mC2.control_state.operator_override = true))) :=
  ⟨Or.inr (by decide),
   c2_amended_dtcs_clear_iff cfgDemo mC2 false true { high := 4000, low := 4000 }
     (Or.inr (by decide))⟩

/-- C9: an inbound data frame with the fault-report CAN id carrying the
2-byte magic marker unconditionally disables the module — `enabled` is
false afterwards regardless of the payload (origin identity and DTCs
included) — and leaves `dtcs` unchanged (no new local diagnostic code);
any data frame whose first two bytes are not the magic marker is
ignored entirely, leaving all state unchanged and emitting nothing. -/
theorem c9_fault_report_frame_disables (cfg : Config) (m : BrakeModule)
    (data : List Nat) (adc : AdcInput) (id2 : Nat) (data2 : List Nat)
    (h0 : data.getD 0 0 = cfg.OSCC_MAGIC_BYTE_0)
    (h1 : data.getD 1 0 = cfg.OSCC_MAGIC_BYTE_1)
    (hne : cfg.OSCC_FAULT_REPORT_CAN_ID ≠ cfg.OSCC_BRAKE_ENABLE_CAN_ID)
    (hnd : cfg.OSCC_FAULT_REPORT_CAN_ID ≠ cfg.OSCC_BRAKE_DISABLE_CAN_ID)
    (hnc : cfg.OSCC_FAULT_REPORT_CAN_ID ≠ cfg.OSCC_BRAKE_COMMAND_CAN_ID)
    (hbad : data2.getD 0 0 ≠ cfg.OSCC_MAGIC_BYTE_0 ∨
      data2.getD 1 0 ≠ cfg.OSCC_MAGIC_BYTE_1) :
    (BrakeModule.process_rx_frame cfg m
        (CanFrame.dataFrame cfg.OSCC_FAULT_REPORT_CAN_ID data) adc).1.control_state.enabled
      = false ∧
    (BrakeModule.process_rx_frame cfg m
        (CanFrame.dataFrame cfg.OSCC_FAULT_REPORT_CAN_ID data) adc).1.control_state.dtcs
      = m.control_state.dtcs ∧
    BrakeModule.process_rx_frame cfg m (CanFrame.dataFrame id2 data2) adc = (m, []) := by
  have hroute : BrakeModule.process_rx_frame cfg m
      (CanFrame.dataFrame cfg.OSCC_FAULT_REPORT_CAN_ID data) adc =
        m.disable_control adc := by
    simp only [BrakeModule.process_rx_frame]
    rw [h0, h1]
    simp [hne, hnd, hnc, BrakeModule.process_fault_report]
  refine ⟨?_, ?_, ?_⟩
  · rw [hroute]; exact disable_control_enabled m adc
  · rw [hroute]; exact disable_control_dtcs m adc
  · have hcond : (data2.getD 0 0 == cfg.OSCC_MAGIC_BYTE_0
        && data2.getD 1 0 == cfg.OSCC_MAGIC_BYTE_1) = false := by
      rcases hbad with hb | hb <;>
        · simp only [List.getD_eq_getElem?_getD] at hb
          simp [hb]
    simp only [BrakeModule.process_rx_frame, hcond]
    simp

/-- Witness for C9: the enabled demo module, a magic-marked fault-report
frame with payload `[5, 204, 7, 9]`, and an enable-id frame without the
marker. -/
theorem c9_fault_report_frame_disables_witness :
    ([5, 204, 7, 9].getD 0 0 = cfgDemo.OSCC_MAGIC_BYTE_0) ∧
    ([5, 204, 7, 9].getD 1 0 = cfgDemo.OSCC_MAGIC_BYTE_1) ∧
    cfgDemo.OSCC_FAULT_REPORT_CAN_ID ≠ cfgDemo.OSCC_BRAKE_ENABLE_CAN_ID ∧
    cfgDemo.OSCC_FAULT_REPORT_CAN_ID ≠ cfgDemo.OSCC_BRAKE_DISABLE_CAN_ID ∧
    cfgDemo.OSCC_FAULT_REPORT_CAN_ID ≠ cfgDemo.OSCC_BRAKE_COMMAND_CAN_ID ∧
    (([0, 0] : List Nat).getD 0 0 ≠ cfgDemo.OSCC_MAGIC_BYTE_0 ∨
      ([0, 0] : List Nat).getD 1 0 ≠ cfgDemo.OSCC_MAGIC_BYTE_1) ∧
    ((BrakeModule.process_rx_frame cfgDemo mDemoEnabled
        (CanFrame.dataFrame cfgDemo.OSCC_FAULT_REPORT_CAN_ID [5, 204, 7, 9])
        { high := 1, low := 2 }).1.control_state.enabled = false ∧
     (BrakeModule.process_rx_frame cfgDemo mDemoEnabled
        (CanFrame.dataFrame cfgDemo.OSCC_FAULT_REPORT_CAN_ID [5, 204, 7, 9])
        { high := 1, low := 2 }).1.control_state.dtcs = mDemoEnabled.control_state.dtcs ∧
     BrakeModule.process_rx_frame cfgDemo mDemoEnabled
        (CanFrame.dataFrame 0x70 [0, 0]) { high := 1, low := 2 } = (mDemoEnabled, [])) :=
  ⟨rfl, rfl, by decide, by decide, by decide, Or.inl (by decide),
   c9_fault_report_frame_disables cfgDemo mDemoEnabled [5, 204, 7, 9]
     { high := 1, low := 2 } 0x70 [0, 0] rfl rfl (by decide) (by decide) (by decide)
     (Or.inl (by decide))⟩

end Oxcc
